import Mathlib

/-!
Shallow embedding of the Observer/Subject notification core and the
mediator registration protocol of the tkAppFramework repository
(src/ObserverPatternBase.py, src/tkViewManager.py, src/model.py,
src/main.py).

Modelling conventions:
- Python objects are identified by natural-number identities (Python's
  default equality and hashing for these classes is object identity).
- `isinstance` and `callable` checks are supplied by a `PyEnv` of boolean
  predicates over object identities.
- A method that can raise returns the post-state paired with an
  `Option PyError` (`none` = returned normally, `some e` = raised `e`,
  leaving the object in the state recorded in the pair).
- `notify`-style dispatch is modelled by the trace of `update`/handler
  invocations it performs, in order, with the argument passed.
- The collection of live `Subject` objects is a heap `Nat → Subject`
  indexed by identity, threaded explicitly where a method touches it.
-/

namespace TkAppFramework

/-- Exceptions the embedded Python code can raise. -/
inductive PyError where
  | assertionError
  | valueError
  | keyError
  | notImplementedError
deriving DecidableEq, Repr

/-- Runtime type information: which object identities satisfy
`isinstance(-, Observer)`, `isinstance(-, Subject)`, `isinstance(-, tk.Widget)`
and `callable(-)`. -/
structure PyEnv where
  isObserver : Nat → Bool
  isSubject : Nat → Bool
  isWidget : Nat → Bool
  isCallable : Nat → Bool

/-- `Observer.update` of the bare base class: `raise NotImplementedError`.
`none` would mean a normal return; the body raises unconditionally. -/
def Observer.update {α : Type} (subject : α) : Option PyError :=
  let _ := subject
  some .notImplementedError

/-- State of a `Subject`: the ordered list of attached observer identities
(`self._observers`). -/
structure Subject where
  _observers : List Nat
deriving DecidableEq, Repr

/-- `Subject.__init__`: `self._observers = []`. -/
def Subject.init : Subject := ⟨[]⟩

/-- `Subject.attach(self, observer=None)`:
`if observer: assert(isinstance(observer, Observer)); self._observers.append(observer)`.
`observer = none` models passing `None` (falsy, so the body is skipped). -/
def Subject.attach (env : PyEnv) (s : Subject) (observer : Option Nat) :
    Subject × Option PyError :=
  match observer with
  | none => (s, none)
  | some o =>
      if env.isObserver o then (⟨s._observers ++ [o]⟩, none)
      else (s, some .assertionError)

/-- `list.remove(x)`: remove the first occurrence of `x`, or `none` when `x`
is not in the list (Python raises `ValueError`). -/
def removeFirst : List Nat → Nat → Option (List Nat)
  | [], _ => none
  | x :: xs, o => if x = o then some xs else (removeFirst xs o).map (x :: ·)

/-- `Subject.detach(self, observer=None)`:
`if observer: self._observers.remove(observer)`.
A failed `remove` raises `ValueError` and leaves the list unchanged. -/
def Subject.detach (s : Subject) (observer : Option Nat) :
    Subject × Option PyError :=
  match observer with
  | none => (s, none)
  | some o =>
      match removeFirst s._observers o with
      | some l => (⟨l⟩, none)
      | none => (s, some .valueError)

/-- `Subject.notify(self)`: `for o in self._observers: o.update(self)`.
Modelled as the trace of `update` calls performed, in order: each entry is
(observer identity, the subject argument passed, namely `self`). -/
def Subject.notify (s : Subject) : List (Nat × Subject) :=
  s._observers.map (fun o => (o, s))

/-- State of a `tkViewManager`: the insertion-ordered dictionary
`self._subjects` mapping subject identity to handler identity. -/
structure tkViewManager where
  _subjects : List (Nat × Nat)
deriving DecidableEq, Repr

/-- Python `dict` assignment `d[k] = v`: overwrite in place if `k` is
present, otherwise append (insertion order preserved). -/
def dictSet : List (Nat × Nat) → Nat → Nat → List (Nat × Nat)
  | [], k, v => [(k, v)]
  | (k', v') :: rest, k, v =>
      if k' = k then (k, v) :: rest else (k', v') :: dictSet rest k v

/-- Python `dict` lookup `d[k]` as an `Option`. -/
def dictGet : List (Nat × Nat) → Nat → Option Nat
  | [], _ => none
  | (k', v') :: rest, k => if k' = k then some v' else dictGet rest k

/-- `tkViewManager.register_subject(self, subject=None, update_handler=None)`:
`assert(isinstance(subject, Subject)); assert(isinstance(subject, tk.Widget));
assert(callable(update_handler)); self._subjects[subject] = update_handler`.
The heap of subjects is threaded through to record that the method body
never touches any subject's observer list; `isinstance(None, -)` and
`callable(None)` are false, so `none` arguments fail the asserts. -/
def tkViewManager.register_subject (env : PyEnv) (vm : tkViewManager)
    (heap : Nat → Subject) (subject update_handler : Option Nat) :
    (tkViewManager × (Nat → Subject)) × Option PyError :=
  match subject with
  | none => ((vm, heap), some .assertionError)
  | some s =>
      if env.isSubject s then
        if env.isWidget s then
          match update_handler with
          | none => ((vm, heap), some .assertionError)
          | some h =>
              if env.isCallable h then
                ((⟨dictSet vm._subjects s h⟩, heap), none)
              else ((vm, heap), some .assertionError)
        else ((vm, heap), some .assertionError)
      else ((vm, heap), some .assertionError)

/-- `tkViewManager.update(self, subject)`:
`assert(isinstance(subject, Subject)); self._subjects[subject]()`.
Result: the trace of handler identities invoked (each with zero arguments),
paired with the exception raised, if any; a missing key raises `KeyError`. -/
def tkViewManager.update (env : PyEnv) (vm : tkViewManager) (subject : Nat) :
    List Nat × Option PyError :=
  if env.isSubject subject then
    match dictGet vm._subjects subject with
    | some h => ([h], none)
    | none => ([], some .keyError)
  else ([], some .assertionError)

/-- The loop of `tkViewManager._detach_from_subjects`:
`for subject in self._subjects: subject.detach(self)`, over the dictionary
keys in insertion order, mutating the heap cell of each subject. An
exception propagates at once, keeping the mutations already made. -/
def detachFromList (self_id : Nat) :
    List Nat → (Nat → Subject) → (Nat → Subject) × Option PyError
  | [], heap => (heap, none)
  | k :: rest, heap =>
      match (heap k).detach (some self_id) with
      | (s', none) => detachFromList self_id rest (fun n => if n = k then s' else heap n)
      | (s', some e) => ((fun n => if n = k then s' else heap n), some e)

/-- `tkViewManager._detach_from_subjects(self)`: detach `self` from every
subject in the dictionary; the dictionary itself is not modified, so the
unchanged `vm` is returned alongside the new heap. -/
def tkViewManager._detach_from_subjects (vm : tkViewManager) (self_id : Nat)
    (heap : Nat → Subject) :
    ((Nat → Subject) × tkViewManager) × Option PyError :=
  (((detachFromList self_id (vm._subjects.map Prod.fst) heap).1, vm),
    (detachFromList self_id (vm._subjects.map Prod.fst) heap).2)

/-- State of a `DemoModel` (src/main.py): a `Model`, hence a `Subject`,
plus the click counter `self._count`. -/
structure DemoModel extends Subject where
  _count : Int
deriving DecidableEq, Repr

/-- `DemoModel.count` property getter: `return self._count`. -/
def DemoModel.count (m : DemoModel) : Int := m._count

/-- `Subject.notify` as inherited by `DemoModel`: each attached observer's
`update` receives `self`, the (current state of the) demo model. -/
def DemoModel.notify (m : DemoModel) : List (Nat × DemoModel) :=
  m._observers.map (fun o => (o, m))

/-- `DemoModel.count` property setter:
`self._count = value; self.notify()`. Returns the post-state and the trace
of `update` calls made by the embedded `notify`. -/
def DemoModel.count_set (m : DemoModel) (value : Int) :
    DemoModel × List (Nat × DemoModel) :=
  ({ m with _count := value }, DemoModel.notify { m with _count := value })

/-- `DemotkViewManager.handle_model_update(self)` reads and prints
`self.getModel().count`; modelled as the counter value it reads from the
model state current at the time of the call. -/
def DemotkViewManager.handle_model_update (model : DemoModel) : Int :=
  model.count

/-- A sequence of `attach` calls on a subject, one per listed observer
identity, stopping at the first exception. -/
def attachSeq (env : PyEnv) (s : Subject) : List Nat → Subject × Option PyError
  | [] => (s, none)
  | o :: rest =>
      match s.attach env (some o) with
      | (s', none) => attachSeq env s' rest
      | (s', some e) => (s', some e)

/-- A concrete runtime-type environment for closed instances: identity 0 is
a `Subject` and a `tk.Widget`, identity 1 is callable, identity 2 is an
`Observer` (the mediator). -/
def envDemo : PyEnv where
  isObserver := fun n => n == 2
  isSubject := fun n => n == 0
  isWidget := fun n => n == 0
  isCallable := fun n => n == 1

/-- A heap where every subject identity holds a freshly initialised
`Subject` with no observers attached. -/
def heapFresh : Nat → Subject := fun _ => Subject.init

/-- A concrete heap where subject 0 has the mediator (identity 2) attached
exactly once and every other cell is fresh. -/
def heapOneReg : Nat → Subject := fun n => if n = 0 then ⟨[2]⟩ else Subject.init

/- ------------------------------------------------------------------ -/
/- Helper lemmas (shared; none is a claim theorem).                   -/
/- ------------------------------------------------------------------ -/

theorem removeFirst_eq_none_of_not_mem (l : List Nat) (o : Nat) (h : o ∉ l) :
    removeFirst l o = none := by
  induction l with
  | nil => rfl
  | cons x xs ih =>
      have hx : x ≠ o := fun hxo => h (hxo ▸ List.mem_cons_self x xs)
      have hxs : o ∉ xs := fun hm => h (List.mem_cons_of_mem x hm)
      simp [removeFirst, hx, ih hxs]

theorem removeFirst_append_not_mem (l₁ l₂ : List Nat) (o : Nat) (h : o ∉ l₁) :
    removeFirst (l₁ ++ o :: l₂) o = some (l₁ ++ l₂) := by
  induction l₁ with
  | nil => simp [removeFirst]
  | cons x xs ih =>
      have hx : x ≠ o := fun hxo => h (hxo ▸ List.mem_cons_self x xs)
      have hxs : o ∉ xs := fun hm => h (List.mem_cons_of_mem x hm)
      simp [removeFirst, hx, ih hxs]

theorem removeFirst_count (l l' : List Nat) (o : Nat)
    (h : removeFirst l o = some l') : l.count o = l'.count o + 1 := by
  induction l generalizing l' with
  | nil => simp [removeFirst] at h
  | cons x xs ih =>
      by_cases hx : x = o
      · subst hx
        simp [removeFirst] at h
        subst h
        simp [List.count_cons_self]
      · simp [removeFirst, hx] at h
        obtain ⟨l₀, hl₀, rfl⟩ := h
        simp [List.count_cons, hx, ih l₀ hl₀]

theorem removeFirst_isSome_of_mem (l : List Nat) (o : Nat) (h : o ∈ l) :
    ∃ l', removeFirst l o = some l' := by
  induction l with
  | nil => cases h
  | cons x xs ih =>
      by_cases hx : x = o
      · exact ⟨xs, by simp [removeFirst, hx]⟩
      · have hxs : o ∈ xs := by
          rcases List.mem_cons.mp h with h' | h'
          · exact absurd h'.symm hx
          · exact h'
        obtain ⟨l', hl'⟩ := ih hxs
        exact ⟨x :: l', by simp [removeFirst, hx, hl']⟩

theorem removeFirst_of_count_one (l : List Nat) (o : Nat)
    (h : l.count o = 1) :
    ∃ l', removeFirst l o = some l' ∧ o ∉ l' := by
  have hmem : o ∈ l := by
    by_contra hno
    rw [List.count_eq_zero_of_not_mem hno] at h
    exact Nat.zero_ne_one h
  obtain ⟨l', hl'⟩ := removeFirst_isSome_of_mem l o hmem
  refine ⟨l', hl', ?_⟩
  have hc := removeFirst_count l l' o hl'
  rw [h] at hc
  have hz : l'.count o = 0 := by omega
  exact List.count_eq_zero.mp hz

theorem dictGet_dictSet_self (m : List (Nat × Nat)) (k v : Nat) :
    dictGet (dictSet m k v) k = some v := by
  induction m with
  | nil => simp [dictSet, dictGet]
  | cons kv rest ih =>
      obtain ⟨k', v'⟩ := kv
      by_cases hk : k' = k
      · simp [dictSet, dictGet, hk]
      · simp [dictSet, dictGet, hk, ih]

theorem attachSeq_ok (env : PyEnv) (os : List Nat) (s : Subject)
    (h : ∀ o ∈ os, env.isObserver o = true) :
    attachSeq env s os = (⟨s._observers ++ os⟩, none) := by
  induction os generalizing s with
  | nil => simp [attachSeq]
  | cons o rest ih =>
      have ho : env.isObserver o = true := h o (List.mem_cons_self o rest)
      have hrest : ∀ o' ∈ rest, env.isObserver o' = true :=
        fun o' hm => h o' (List.mem_cons_of_mem o hm)
      simp [attachSeq, Subject.attach, ho, ih ⟨s._observers ++ [o]⟩ hrest]

theorem detachFromList_ok (self_id : Nat) (keys : List Nat)
    (heap : Nat → Subject) (hnd : keys.Nodup)
    (h1 : ∀ k ∈ keys, ((heap k)._observers).count self_id = 1) :
    (detachFromList self_id keys heap).2 = none ∧
    (∀ k ∈ keys,
      self_id ∉ ((detachFromList self_id keys heap).1 k)._observers) ∧
    (∀ n, n ∉ keys → (detachFromList self_id keys heap).1 n = heap n) := by
  induction keys generalizing heap with
  | nil => simp [detachFromList]
  | cons k rest ih =>
      have hk : ((heap k)._observers).count self_id = 1 :=
        h1 k (List.mem_cons_self k rest)
      obtain ⟨l', hl', hnotin⟩ := removeFirst_of_count_one _ _ hk
      have hdet : (heap k).detach (some self_id) = (⟨l'⟩, none) := by
        simp [Subject.detach, hl']
      have hkrest : k ∉ rest := (List.nodup_cons.mp hnd).1
      have hndrest : rest.Nodup := (List.nodup_cons.mp hnd).2
      have hstep : detachFromList self_id (k :: rest) heap =
          detachFromList self_id rest
            (fun n => if n = k then ⟨l'⟩ else heap n) := by
        simp [detachFromList, hdet]
      have hrest1 : ∀ k' ∈ rest,
          (((fun n => if n = k then (⟨l'⟩ : Subject) else heap n) k')._observers).count
            self_id = 1 := by
        intro k' hm
        have hne : k' ≠ k := fun hkk => hkrest (hkk ▸ hm)
        simpa [hne] using h1 k' (List.mem_cons_of_mem k hm)
      obtain ⟨he, hmem, hframe⟩ :=
        ih (fun n => if n = k then ⟨l'⟩ else heap n) hndrest hrest1
      refine ⟨by rw [hstep]; exact he, ?_, ?_⟩
      · intro k0 hk0
        rw [hstep]
        rcases List.mem_cons.mp hk0 with hk0 | hk0
        · subst hk0
          rw [hframe k0 hkrest]
          simpa using hnotin
        · exact hmem k0 hk0
      · intro n hn
        have hn1 : n ≠ k := fun hnk => hn (hnk ▸ List.mem_cons_self k rest)
        have hn2 : n ∉ rest := fun hm => hn (List.mem_cons_of_mem k hm)
        rw [hstep, hframe n hn2]
        simp [hn1]

/- ------------------------------------------------------------------ -/
/- Claim theorems.                                                    -/
/- ------------------------------------------------------------------ -/

/-- Claim C2: on a fresh `Subject`, a sequence of successful `attach` calls
(one observer per call, duplicates allowed) raises nothing, yields an
observer list equal to the attached sequence (so of length n), and a
subsequent `notify` performs exactly one `update` call per attached entry,
in attachment order, passing the notifying subject itself as the argument. -/
theorem attach_sequence_then_notify (env : PyEnv) (os : List Nat)
    (h : ∀ o ∈ os, env.isObserver o = true) :
    (attachSeq env Subject.init os).2 = none ∧
    ((attachSeq env Subject.init os).1)._observers = os ∧
    ((attachSeq env Subject.init os).1).notify
      = os.map (fun o => (o, (attachSeq env Subject.init os).1)) ∧
    ((attachSeq env Subject.init os).1).notify.length = os.length := by
  have hs := attachSeq_ok env os Subject.init h
  rw [hs]
  simp [Subject.notify, Subject.init]

/-- Witness for C2 at the concrete sequence `[2, 2]` (a duplicate attach). -/
theorem attach_sequence_then_notify_witness :
    (attachSeq envDemo Subject.init [2, 2]).2 = none ∧
    ((attachSeq envDemo Subject.init [2, 2]).1)._observers = [2, 2] ∧
    ((attachSeq envDemo Subject.init [2, 2]).1).notify
      = [2, 2].map (fun o => (o, (attachSeq envDemo Subject.init [2, 2]).1)) ∧
    ((attachSeq envDemo Subject.init [2, 2]).1).notify.length = [2, 2].length :=
  attach_sequence_then_notify envDemo [2, 2] (by decide)

/-- Claim C3: when the observer list is `l₁ ++ o :: l₂` with `o ∉ l₁` (the
shown `o` is the first occurrence), `detach(o)` removes exactly that
occurrence, leaving `l₁ ++ l₂` with all other entries in order; and if `o`
occurred only once (`o ∉ l₂` as well), a subsequent `notify` performs no
`update` call on `o`. -/
theorem detach_removes_first_occurrence (l₁ l₂ : List Nat) (o : Nat)
    (h : o ∉ l₁) :
    Subject.detach ⟨l₁ ++ o :: l₂⟩ (some o) = (⟨l₁ ++ l₂⟩, none) ∧
    (o ∉ l₂ →
      ∀ p ∈ ((Subject.detach ⟨l₁ ++ o :: l₂⟩ (some o)).1).notify, p.1 ≠ o) := by
  have hd : Subject.detach ⟨l₁ ++ o :: l₂⟩ (some o) = (⟨l₁ ++ l₂⟩, none) := by
    simp [Subject.detach, removeFirst_append_not_mem l₁ l₂ o h]
  refine ⟨hd, ?_⟩
  intro h2 p hp
  rw [hd] at hp
  simp only [Subject.notify, List.mem_map] at hp
  obtain ⟨a, ha, rfl⟩ := hp
  intro hao
  rcases List.mem_append.mp ha with ha1 | ha2
  · exact h (hao ▸ ha1)
  · exact h2 (hao ▸ ha2)

/-- Witness for C3: detaching `7` from `[5, 7, 7]` yields `[5, 7]`; with the
duplicate present the second conjunct's hypothesis fails, so we witness it
on `[5, 7, 6]` instead, where `notify` after detach never calls `7`. -/
theorem detach_removes_first_occurrence_witness :
    Subject.detach ⟨[5] ++ 7 :: [6]⟩ (some 7) = (⟨[5] ++ [6]⟩, none) ∧
    (∀ p ∈ ((Subject.detach ⟨[5] ++ 7 :: [6]⟩ (some 7)).1).notify, p.1 ≠ 7) :=
  ⟨(detach_removes_first_occurrence [5] [6] 7 (by decide)).1,
   (detach_removes_first_occurrence [5] [6] 7 (by decide)).2 (by decide)⟩

/-- Claim C4: `detach` with a non-`None` observer that is not in the
observer list raises `ValueError` (`list.remove`: not found) and leaves the
subject's observer list exactly as it was. -/
theorem detach_unattached_fails_unchanged (s : Subject) (o : Nat)
    (h : o ∉ s._observers) :
    s.detach (some o) = (s, some PyError.valueError) := by
  simp [Subject.detach, removeFirst_eq_none_of_not_mem s._observers o h]

/-- Witness for C4 on a fresh subject and observer identity 5. -/
theorem detach_unattached_fails_unchanged_witness :
    Subject.init.detach (some 5) = (Subject.init, some PyError.valueError) :=
  detach_unattached_fails_unchanged Subject.init 5 (by decide)

/-- Claim C5: calling `update` on the bare base `Observer` raises
`NotImplementedError` for every argument value; it never returns normally. -/
theorem base_observer_update_not_implemented {α : Type} (subject : α) :
    Observer.update subject = some PyError.notImplementedError ∧
    Observer.update subject ≠ none :=
  ⟨rfl, by simp [Observer.update]⟩

/-- Witness for C5 at a concrete subject argument. -/
theorem base_observer_update_not_implemented_witness :
    Observer.update Subject.init = some PyError.notImplementedError ∧
    Observer.update Subject.init ≠ none :=
  base_observer_update_not_implemented Subject.init

/-- Claim C10: `attach` with `None` (the default argument) returns normally
and leaves the observer list unchanged, and so does `detach` with `None` —
even though `None` was never attached, whereas `detach` of a non-`None`
never-attached observer raises `ValueError`. -/
theorem attach_detach_none_noop (env : PyEnv) (s : Subject) :
    s.attach env none = (s, none) ∧
    s.detach none = (s, none) ∧
    (∀ o, o ∉ s._observers → (s.detach (some o)).2 = some PyError.valueError) := by
  refine ⟨rfl, rfl, ?_⟩
  intro o ho
  simp [Subject.detach, removeFirst_eq_none_of_not_mem s._observers o ho]

/-- Witness for C10 on a fresh subject, contrasting with observer 5. -/
theorem attach_detach_none_noop_witness :
    Subject.init.attach envDemo none = (Subject.init, none) ∧
    Subject.init.detach none = (Subject.init, none) ∧
    (Subject.init.detach (some 5)).2 = some PyError.valueError :=
  ⟨(attach_detach_none_noop envDemo Subject.init).1,
   (attach_detach_none_noop envDemo Subject.init).2.1,
   (attach_detach_none_noop envDemo Subject.init).2.2 5 (by decide)⟩

/-- Claim C6: for a mediator whose dictionary binds subject `s` to handler
`h`, the mediator's `update(s)` invokes exactly `h` (the invocation trace is
`[h]`, so no handler registered for any other subject runs) with zero
arguments; for a `Subject` never registered, `update(s)` raises `KeyError`
with no handler invoked. -/
theorem mediator_update_dispatch (env : PyEnv) (vm : tkViewManager) (s : Nat)
    (hs : env.isSubject s = true) :
    (∀ h, dictGet vm._subjects s = some h →
      tkViewManager.update env vm s = ([h], none)) ∧
    (dictGet vm._subjects s = none →
      tkViewManager.update env vm s = ([], some PyError.keyError)) := by
  constructor
  · intro h hh
    simp [tkViewManager.update, hs, hh]
  · intro hh
    simp [tkViewManager.update, hs, hh]

/-- Witness for C6: dispatch on a registered subject, and `KeyError` on an
unregistered one. -/
theorem mediator_update_dispatch_witness :
    tkViewManager.update envDemo ⟨[(0, 1)]⟩ 0 = ([1], none) ∧
    tkViewManager.update envDemo ⟨[]⟩ 0 = ([], some PyError.keyError) :=
  ⟨(mediator_update_dispatch envDemo ⟨[(0, 1)]⟩ 0 (by decide)).1 1 (by decide),
   (mediator_update_dispatch envDemo ⟨[]⟩ 0 (by decide)).2 (by decide)⟩

/-- Claim C7: a rejected `attach` (argument not an `Observer`) raises
`AssertionError` and leaves the observer list exactly as it was; a rejected
`register_subject` (subject not a `Subject`, or not a widget, or handler not
callable) raises `AssertionError` and leaves both the handler dictionary and
every subject's observer list (the heap) exactly as they were. -/
theorem rejected_call_no_state_change (env : PyEnv) (s : Subject) (o : Nat)
    (vm : tkViewManager) (heap : Nat → Subject) (s0 h0 : Nat) :
    (env.isObserver o = false →
      s.attach env (some o) = (s, some PyError.assertionError)) ∧
    (env.isSubject s0 = false ∨ env.isWidget s0 = false ∨
        env.isCallable h0 = false →
      tkViewManager.register_subject env vm heap (some s0) (some h0)
        = ((vm, heap), some PyError.assertionError)) := by
  constructor
  · intro ho
    simp [Subject.attach, ho]
  · intro hcase
    rcases hcase with hc | hc | hc <;>
      simp [tkViewManager.register_subject, hc]

/-- Witness for C7: attaching non-Observer 0, and registering non-Subject 1. -/
theorem rejected_call_no_state_change_witness :
    Subject.init.attach envDemo (some 0)
      = (Subject.init, some PyError.assertionError) ∧
    tkViewManager.register_subject envDemo ⟨[]⟩ heapFresh (some 1) (some 1)
      = ((⟨[]⟩, heapFresh), some PyError.assertionError) :=
  ⟨(rejected_call_no_state_change envDemo Subject.init 0 ⟨[]⟩ heapFresh 1 1).1
      (by decide),
   (rejected_call_no_state_change envDemo Subject.init 0 ⟨[]⟩ heapFresh 1 1).2
      (Or.inl (by decide))⟩

/-- Claim C1 counterexample: on a fresh heap, `register_subject(0, 1)`
succeeds and records handler 1 under subject 0, yet subject 0's observer
list is left empty — the mediator is not among its observers, refuting the
claim that `register_subject` also attaches the mediator to the subject. -/
theorem register_subject_attach_counterexample :
    (tkViewManager.register_subject envDemo ⟨[]⟩ heapFresh
        (some 0) (some 1)).2 = none ∧
    dictGet ((tkViewManager.register_subject envDemo ⟨[]⟩ heapFresh
        (some 0) (some 1)).1.1)._subjects 0 = some 1 ∧
    (((tkViewManager.register_subject envDemo ⟨[]⟩ heapFresh
        (some 0) (some 1)).1.2) 0)._observers = [] :=
  ⟨rfl, rfl, rfl⟩

/-- Claim C1 (amended): `register_subject(s, h)` with `s` a `Subject` and
widget and `h` callable succeeds and records `h` under `s`'s identity in the
internal mapping, but performs no attachment: every subject's observer list
is left exactly as it was, and attaching the mediator is a separate step the
caller must perform. -/
theorem register_subject_records_handler_only (env : PyEnv)
    (vm : tkViewManager) (heap : Nat → Subject) (s h : Nat)
    (hs : env.isSubject s = true) (hw : env.isWidget s = true)
    (hc : env.isCallable h = true) :
    (tkViewManager.register_subject env vm heap (some s) (some h)).2 = none ∧
    dictGet ((tkViewManager.register_subject env vm heap
        (some s) (some h)).1.1)._subjects s = some h ∧
    (tkViewManager.register_subject env vm heap (some s) (some h)).1.2
      = heap := by
  simp [tkViewManager.register_subject, hs, hw, hc, dictGet_dictSet_self]

/-- Witness for the amended C1 at subject 0, handler 1. -/
theorem register_subject_records_handler_only_witness :
    (tkViewManager.register_subject envDemo ⟨[]⟩ heapFresh
        (some 0) (some 1)).2 = none ∧
    dictGet ((tkViewManager.register_subject envDemo ⟨[]⟩ heapFresh
        (some 0) (some 1)).1.1)._subjects 0 = some 1 ∧
    (tkViewManager.register_subject envDemo ⟨[]⟩ heapFresh
        (some 0) (some 1)).1.2 = heapFresh :=
  register_subject_records_handler_only envDemo ⟨[]⟩ heapFresh 0 1
    (by decide) (by decide) (by decide)

/-- Claim C8: if the mediator (identity `self_id`) is attached exactly once
to every subject keyed in its dictionary (keys are distinct, as dict keys
are), then `_detach_from_subjects` raises nothing, afterwards no such
subject's observer list contains the mediator — so a later `notify` on any
of them performs no `update` call on the mediator — and the handler
dictionary is unchanged. -/
theorem detach_from_all_registered (vm : tkViewManager) (self_id : Nat)
    (heap : Nat → Subject)
    (hnd : (vm._subjects.map Prod.fst).Nodup)
    (h1 : ∀ k ∈ vm._subjects.map Prod.fst,
      ((heap k)._observers).count self_id = 1) :
    (tkViewManager._detach_from_subjects vm self_id heap).2 = none ∧
    (∀ k ∈ vm._subjects.map Prod.fst,
      self_id ∉
        (((tkViewManager._detach_from_subjects vm self_id heap).1.1) k)._observers ∧
      ∀ p ∈ (((tkViewManager._detach_from_subjects vm self_id heap).1.1) k).notify,
        p.1 ≠ self_id) ∧
    ((tkViewManager._detach_from_subjects vm self_id heap).1.2)._subjects
      = vm._subjects := by
  obtain ⟨he, hmem, hframe⟩ :=
    detachFromList_ok self_id (vm._subjects.map Prod.fst) heap hnd h1
  refine ⟨he, ?_, rfl⟩
  intro k hk
  refine ⟨hmem k hk, ?_⟩
  intro p hp
  simp only [Subject.notify, List.mem_map] at hp
  obtain ⟨a, ha, rfl⟩ := hp
  exact fun hao => hmem k hk (hao ▸ ha)

/-- Witness for C8: one registered subject (0 ↦ handler 1), mediator 2
attached once. -/
theorem detach_from_all_registered_witness :
    (tkViewManager._detach_from_subjects ⟨[(0, 1)]⟩ 2 heapOneReg).2 = none ∧
    (∀ k ∈ (tkViewManager.mk [(0, 1)])._subjects.map Prod.fst,
      2 ∉ (((tkViewManager._detach_from_subjects ⟨[(0, 1)]⟩ 2
          heapOneReg).1.1) k)._observers ∧
      ∀ p ∈ (((tkViewManager._detach_from_subjects ⟨[(0, 1)]⟩ 2
          heapOneReg).1.1) k).notify, p.1 ≠ 2) ∧
    ((tkViewManager._detach_from_subjects ⟨[(0, 1)]⟩ 2
        heapOneReg).1.2)._subjects = [(0, 1)] :=
  detach_from_all_registered ⟨[(0, 1)]⟩ 2 heapOneReg (by decide) (by decide)

/-- Claim C9: the `DemoModel.count` setter stores the new value first and
only then notifies: the post-state's counter equals the new value, the
notification trace passes the post-mutation model to every attached observer
(in order), and every handler dispatched from it — in particular
`handle_model_update` — reads the post-mutation counter value. -/
theorem count_setter_mutate_then_notify (m : DemoModel) (v : Int) :
    ((m.count_set v).1).count = v ∧
    (m.count_set v).2 = m._observers.map (fun o => (o, (m.count_set v).1)) ∧
    (∀ p ∈ (m.count_set v).2,
      p.2.count = v ∧ DemotkViewManager.handle_model_update p.2 = v) := by
  refine ⟨rfl, rfl, ?_⟩
  intro p hp
  simp only [DemoModel.count_set, DemoModel.notify, List.mem_map] at hp
  obtain ⟨o, ho, rfl⟩ := hp
  exact ⟨rfl, rfl⟩

/-- Witness for C9: a model with observer 2 and counter 0, set to 1. -/
theorem count_setter_mutate_then_notify_witness :
    ((DemoModel.mk ⟨[2]⟩ 0).count_set 1).1.count = 1 ∧
    ((2, DemoModel.mk ⟨[2]⟩ 1) ∈ ((DemoModel.mk ⟨[2]⟩ 0).count_set 1).2) ∧
    (2, DemoModel.mk ⟨[2]⟩ 1).2.count = 1 ∧
    DemotkViewManager.handle_model_update (2, DemoModel.mk ⟨[2]⟩ 1).2 = 1 :=
  ⟨(count_setter_mutate_then_notify ⟨⟨[2]⟩, 0⟩ 1).1,
   by decide,
   ((count_setter_mutate_then_notify ⟨⟨[2]⟩, 0⟩ 1).2.2 (2, ⟨⟨[2]⟩, 1⟩)
      (by decide)).1,
   ((count_setter_mutate_then_notify ⟨⟨[2]⟩, 0⟩ 1).2.2 (2, ⟨⟨[2]⟩, 1⟩)
      (by decide)).2⟩

end TkAppFramework
